import Mathlib

/-!
Verification of the quantum-gate demonstration drivers
(`qiskit_examples.py` and `braket_examples.py`).

The repository consists of two structurally identical driver classes.  Each
driver owns one execution backend, exposes eight demonstration methods (one
per gate or gate combination), and an aggregate `run_all_examples` that calls
the eight demonstrations in a fixed order.  Every demonstration builds a
hard-coded circuit, performs exactly one submission with `shots = 1000`,
and returns the pair `(counts, circuit)`.

The execution backend (`Aer.qasm_simulator` for Qiskit, `LocalSimulator` /
`AwsDevice` for Braket) is an external SDK, so it is embedded as an abstract
capability: a state-passing `submit` operation that may fail.  State passing
makes the number and order of submissions observable, and the `Except` result
makes error propagation observable.  Where a claim is about the behaviour of
the external noiseless simulator itself, a deterministic statevector
simulator is modelled from the spec (see `idealQiskitBackend` and
`idealBraketBackend` below).
-/

/-- The single-qubit gates appearing in the two drivers:
Pauli-X, Pauli-Y, Pauli-Z, Phase (S), T, Hadamard. -/
inductive Gate
  | X
  | Y
  | Z
  | S
  | T
  | H
deriving DecidableEq, Repr

/-- A measurement outcome histogram: an association list from
bit-string outcome to occurrence count (insertion order preserved,
absent outcomes implicitly zero), mirroring the Python dict / `Counter`. -/
abbrev ResultSet := List (List Bool × Nat)

/-- Sum of all counts in a `ResultSet`. -/
def sumCounts (rs : ResultSet) : Nat :=
  (rs.map Prod.snd).sum

/-- Dictionary lookup with default 0, mirroring `counts.get(key, 0)` /
`Counter.__getitem__`. -/
def lookupCount : ResultSet → List Bool → Nat
  | [], _ => 0
  | (k, n) :: rest, o => if k = o then n else lookupCount rest o

namespace Qiskit

/-- One instruction of a Qiskit `QuantumCircuit`: a gate applied to a qubit,
or a measurement of a qubit into a classical bit (`qc.measure(q, c)`). -/
inductive QOp
  | gate (g : Gate) (q : Nat)
  | measure (q : Nat) (c : Nat)
deriving DecidableEq, Repr

/-- A Qiskit `QuantumCircuit(numQubits, numClbits, name=...)` together with
the instructions appended to it, in order. -/
structure QuantumCircuit where
  numQubits : Nat
  numClbits : Nat
  name : String
  ops : List QOp
deriving DecidableEq, Repr

/-- The qubit an instruction acts on (for a measurement, the qubit read). -/
def QOp.targetQubit : QOp → Nat
  | .gate _ q => q
  | .measure q _ => q

/-- Whether an instruction is a measurement. -/
def QOp.isMeasure : QOp → Bool
  | .gate _ _ => false
  | .measure _ _ => true

/-- The circuit built by `QuantumGateExamples.pauli_x_gate`:
`QuantumCircuit(1, 1)`, `qc.x(0)`, `qc.measure(0, 0)`. -/
def pauliX_circuit : QuantumCircuit :=
  { numQubits := 1, numClbits := 1, name := "Pauli-X Example",
    ops := [.gate .X 0, .measure 0 0] }

/-- The circuit built by `QuantumGateExamples.pauli_y_gate`:
`QuantumCircuit(1, 1)`, `qc.y(0)`, `qc.measure(0, 0)`. -/
def pauliY_circuit : QuantumCircuit :=
  { numQubits := 1, numClbits := 1, name := "Pauli-Y Example",
    ops := [.gate .Y 0, .measure 0 0] }

/-- The circuit built by `QuantumGateExamples.pauli_z_gate`:
`QuantumCircuit(2, 1)`, `qc.h(0)`, `qc.z(0)`, `qc.measure(0, 0)`.
Note the two-qubit quantum register with all operations on qubit 0. -/
def pauliZ_circuit : QuantumCircuit :=
  { numQubits := 2, numClbits := 1, name := "Pauli-Z Example",
    ops := [.gate .H 0, .gate .Z 0, .measure 0 0] }

/-- The circuit built by `QuantumGateExamples.phase_gate`:
`QuantumCircuit(1, 1)`, `qc.h(0)`, `qc.s(0)`, `qc.measure(0, 0)`. -/
def phase_circuit : QuantumCircuit :=
  { numQubits := 1, numClbits := 1, name := "Phase Gate Example",
    ops := [.gate .H 0, .gate .S 0, .measure 0 0] }

/-- The circuit built by `QuantumGateExamples.t_gate`:
`QuantumCircuit(1, 1)`, `qc.h(0)`, `qc.t(0)`, `qc.measure(0, 0)`. -/
def tGate_circuit : QuantumCircuit :=
  { numQubits := 1, numClbits := 1, name := "T Gate Example",
    ops := [.gate .H 0, .gate .T 0, .measure 0 0] }

/-- The circuit built by `QuantumGateExamples.hadamard_gate`:
`QuantumCircuit(1, 1)`, `qc.h(0)`, `qc.measure(0, 0)`. -/
def hadamard_circuit : QuantumCircuit :=
  { numQubits := 1, numClbits := 1, name := "Hadamard Gate Example",
    ops := [.gate .H 0, .measure 0 0] }

/-- The circuit built by `QuantumGateExamples.hadamard_twice`:
`QuantumCircuit(1, 1)`, `qc.h(0)`, `qc.h(0)`, `qc.measure(0, 0)`. -/
def hadamardTwice_circuit : QuantumCircuit :=
  { numQubits := 1, numClbits := 1, name := "Double Hadamard Example",
    ops := [.gate .H 0, .gate .H 0, .measure 0 0] }

/-- The circuit built by `QuantumGateExamples.gate_combination_circuit`:
`QuantumCircuit(1, 1)`, `qc.h(0)`, `qc.x(0)`, `qc.s(0)`, `qc.h(0)`,
`qc.measure(0, 0)`. -/
def combination_circuit : QuantumCircuit :=
  { numQubits := 1, numClbits := 1, name := "Gate Combination",
    ops := [.gate .H 0, .gate .X 0, .gate .S 0, .gate .H 0, .measure 0 0] }

/-- The gate list of a circuit (measurements filtered out), i.e. the
hard-coded gate sequence of a demonstration method. -/
def gatesOf (qc : QuantumCircuit) : List Gate :=
  qc.ops.filterMap fun op =>
    match op with
    | .gate g _ => some g
    | .measure _ _ => none

/-- The abstract execution backend of the Qiskit driver
(`execute(qc, self.simulator, shots=...)` followed by
`job.result().get_counts(qc)`, collapsed into one synchronous `submit`
operation).  It is state-passing so that the number and order of submissions
are observable, and may fail with an error of type `ε`
(backend unavailable / submission failure). -/
structure Backend (σ ε : Type) where
  submit : σ → QuantumCircuit → Nat → σ × Except ε ResultSet

variable {σ ε : Type}

/-- The common body of every demonstration method: submit the circuit with
`shots = 1000`, block for the result, and return `(counts, circuit)`.
A backend failure propagates unmodified.  (The `print` calls of the source
produce stdout only and carry no data, so they are not modelled.) -/
def submitAndReport (b : Backend σ ε) (s : σ) (qc : QuantumCircuit) :
    σ × Except ε (ResultSet × QuantumCircuit) :=
  match b.submit s qc 1000 with
  | (s', .error e) => (s', .error e)
  | (s', .ok counts) => (s', .ok (counts, qc))

/-- `QuantumGateExamples.pauli_x_gate`. -/
def pauli_x_gate (b : Backend σ ε) (s : σ) :
    σ × Except ε (ResultSet × QuantumCircuit) :=
  submitAndReport b s pauliX_circuit

/-- `QuantumGateExamples.pauli_y_gate`. -/
def pauli_y_gate (b : Backend σ ε) (s : σ) :
    σ × Except ε (ResultSet × QuantumCircuit) :=
  submitAndReport b s pauliY_circuit

/-- `QuantumGateExamples.pauli_z_gate`. -/
def pauli_z_gate (b : Backend σ ε) (s : σ) :
    σ × Except ε (ResultSet × QuantumCircuit) :=
  submitAndReport b s pauliZ_circuit

/-- `QuantumGateExamples.phase_gate`. -/
def phase_gate (b : Backend σ ε) (s : σ) :
    σ × Except ε (ResultSet × QuantumCircuit) :=
  submitAndReport b s phase_circuit

/-- `QuantumGateExamples.t_gate`. -/
def t_gate (b : Backend σ ε) (s : σ) :
    σ × Except ε (ResultSet × QuantumCircuit) :=
  submitAndReport b s tGate_circuit

/-- `QuantumGateExamples.hadamard_gate`. -/
def hadamard_gate (b : Backend σ ε) (s : σ) :
    σ × Except ε (ResultSet × QuantumCircuit) :=
  submitAndReport b s hadamard_circuit

/-- `QuantumGateExamples.hadamard_twice`. -/
def hadamard_twice (b : Backend σ ε) (s : σ) :
    σ × Except ε (ResultSet × QuantumCircuit) :=
  submitAndReport b s hadamardTwice_circuit

/-- `QuantumGateExamples.gate_combination_circuit`. -/
def gate_combination_circuit (b : Backend σ ε) (s : σ) :
    σ × Except ε (ResultSet × QuantumCircuit) :=
  submitAndReport b s combination_circuit

/-- Sequence one demonstration before the rest of `run_all_examples`:
an unhandled failure aborts everything that follows (plain Python exception
propagation — there is no try/except in the source). -/
def seqDemo (step : σ × Except ε (ResultSet × QuantumCircuit))
    (rest : σ → σ × Except ε Unit) : σ × Except ε Unit :=
  match step with
  | (s', .error e) => (s', .error e)
  | (s', .ok _) => rest s'

/-- `QuantumGateExamples.run_all_examples`: the eight demonstrations called
sequentially in the fixed source order, with no error handling.  The banner
`print` calls produce stdout only and are not modelled. -/
def run_all_examples (b : Backend σ ε) (s : σ) : σ × Except ε Unit :=
  seqDemo (pauli_x_gate b s) fun s1 =>
  seqDemo (pauli_y_gate b s1) fun s2 =>
  seqDemo (pauli_z_gate b s2) fun s3 =>
  seqDemo (phase_gate b s3) fun s4 =>
  seqDemo (t_gate b s4) fun s5 =>
  seqDemo (hadamard_gate b s5) fun s6 =>
  seqDemo (hadamard_twice b s6) fun s7 =>
  seqDemo (gate_combination_circuit b s7) fun s8 => (s8, .ok ())

/-- A total backend built from a pure counts function `f`; its state logs
every submission (circuit and shot count) in order.  Used to observe which
submissions a piece of driver code performs. -/
def pureLogBackend (f : QuantumCircuit → Nat → ResultSet) :
    Backend (List (QuantumCircuit × Nat)) ε :=
  ⟨fun log qc shots => (log ++ [(qc, shots)], .ok (f qc shots))⟩

/-- A backend that fails with error `e` on its `k`-th submission (0-based)
and otherwise answers via the pure counts function `f`; its state counts the
submissions performed so far. -/
def failAtBackend (f : QuantumCircuit → Nat → ResultSet) (k : Nat) (e : ε) :
    Backend Nat ε :=
  ⟨fun n qc shots => (n + 1, if n = k then .error e else .ok (f qc shots))⟩

/-- The submit contract of the spec: whenever a submission succeeds, the
returned counts sum to the requested number of shots. -/
def QContract (b : Backend σ ε) : Prop :=
  ∀ s qc shots s' cs, b.submit s qc shots = (s', .ok cs) → sumCounts cs = shots

/-- The eight demonstration methods paired with the circuits they build,
in the source order of the class body (also the `run_all_examples` order). -/
def demoPairs (σ ε : Type) :
    List ((Backend σ ε → σ → σ × Except ε (ResultSet × QuantumCircuit)) ×
      QuantumCircuit) :=
  [(pauli_x_gate, pauliX_circuit),
   (pauli_y_gate, pauliY_circuit),
   (pauli_z_gate, pauliZ_circuit),
   (phase_gate, phase_circuit),
   (t_gate, tGate_circuit),
   (hadamard_gate, hadamard_circuit),
   (hadamard_twice, hadamardTwice_circuit),
   (gate_combination_circuit, combination_circuit)]

end Qiskit

namespace Braket

/-- One instruction of a Braket `Circuit`: a gate applied to a qubit, or the
`circuit.result_type.sample(observable=Z)` request appended by every
demonstration. -/
inductive BOp
  | gate (g : Gate) (q : Nat)
  | sampleZ
deriving DecidableEq, Repr

/-- A Braket `Circuit()`: the instructions appended to it, in order. -/
structure BCircuit where
  ops : List BOp
deriving DecidableEq, Repr

/-- The circuit built by `BraketQuantumGateExamples.pauli_x_gate_example`:
`circuit.x(0)` then the sample result type. -/
def bPauliX_circuit : BCircuit :=
  ⟨[.gate .X 0, .sampleZ]⟩

/-- The circuit built by `BraketQuantumGateExamples.pauli_y_gate_example`. -/
def bPauliY_circuit : BCircuit :=
  ⟨[.gate .Y 0, .sampleZ]⟩

/-- The circuit built by `BraketQuantumGateExamples.pauli_z_gate_example`:
`circuit.h(0)`, `circuit.z(0)`, sample result type. -/
def bPauliZ_circuit : BCircuit :=
  ⟨[.gate .H 0, .gate .Z 0, .sampleZ]⟩

/-- The circuit built by `BraketQuantumGateExamples.phase_gate_example`:
`circuit.h(0)`, `circuit.s(0)`, sample result type. -/
def bPhase_circuit : BCircuit :=
  ⟨[.gate .H 0, .gate .S 0, .sampleZ]⟩

/-- The circuit built by `BraketQuantumGateExamples.t_gate_example`:
`circuit.h(0)`, `circuit.t(0)`, sample result type. -/
def bTGate_circuit : BCircuit :=
  ⟨[.gate .H 0, .gate .T 0, .sampleZ]⟩

/-- The circuit built by `BraketQuantumGateExamples.hadamard_gate_example`:
`circuit.h(0)`, sample result type. -/
def bHadamard_circuit : BCircuit :=
  ⟨[.gate .H 0, .sampleZ]⟩

/-- The circuit built by `BraketQuantumGateExamples.hadamard_twice_example`:
`circuit.h(0)`, `circuit.h(0)`, sample result type. -/
def bHadamardTwice_circuit : BCircuit :=
  ⟨[.gate .H 0, .gate .H 0, .sampleZ]⟩

/-- The circuit built by `BraketQuantumGateExamples.complex_circuit_example`:
`circuit.h(0)`, `circuit.x(0)`, `circuit.s(0)`, `circuit.h(0)`, sample
result type. -/
def bComplex_circuit : BCircuit :=
  ⟨[.gate .H 0, .gate .X 0, .gate .S 0, .gate .H 0, .sampleZ]⟩

/-- The gate list of a Braket circuit (result types filtered out). -/
def bGatesOf (c : BCircuit) : List Gate :=
  c.ops.filterMap fun op =>
    match op with
    | .gate g _ => some g
    | .sampleZ => none

/-- The abstract Braket device (`self.device.run(circuit, shots=...)`
followed by `.result().measurements`, collapsed into one synchronous `run`
operation returning the list of per-shot measurement bit-strings).
State-passing, may fail with an error of type `ε`. -/
structure BBackend (σ ε : Type) where
  run : σ → BCircuit → Nat → σ × Except ε (List (List Bool))

/-- One `Counter` increment: bump the count of `m` in the association list,
appending a fresh `(m, 1)` entry when `m` is not yet a key. -/
def bump (acc : ResultSet) (m : List Bool) : ResultSet :=
  match acc with
  | [] => [(m, 1)]
  | (k, n) :: rest => if k = m then (k, n + 1) :: rest else (k, n) :: bump rest m

/-- `Counter(tuple(measurement) for measurement in measurements)`:
tally the measurement rows into an outcome histogram, keys in first-seen
order. -/
def tally (ms : List (List Bool)) : ResultSet :=
  ms.foldl bump []

variable {σ ε : Type}

/-- The common body of every Braket demonstration method: run the circuit
with `shots = 1000`, block for the measurement rows, tally them into counts,
and return `(counts, circuit)`.  A device failure propagates unmodified. -/
def runAndReport (b : BBackend σ ε) (s : σ) (c : BCircuit) :
    σ × Except ε (ResultSet × BCircuit) :=
  match b.run s c 1000 with
  | (s', .error e) => (s', .error e)
  | (s', .ok ms) => (s', .ok (tally ms, c))

/-- `BraketQuantumGateExamples.pauli_x_gate_example`. -/
def pauli_x_gate_example (b : BBackend σ ε) (s : σ) :
    σ × Except ε (ResultSet × BCircuit) :=
  runAndReport b s bPauliX_circuit

/-- `BraketQuantumGateExamples.pauli_y_gate_example`. -/
def pauli_y_gate_example (b : BBackend σ ε) (s : σ) :
    σ × Except ε (ResultSet × BCircuit) :=
  runAndReport b s bPauliY_circuit

/-- `BraketQuantumGateExamples.pauli_z_gate_example`. -/
def pauli_z_gate_example (b : BBackend σ ε) (s : σ) :
    σ × Except ε (ResultSet × BCircuit) :=
  runAndReport b s bPauliZ_circuit

/-- `BraketQuantumGateExamples.phase_gate_example`. -/
def phase_gate_example (b : BBackend σ ε) (s : σ) :
    σ × Except ε (ResultSet × BCircuit) :=
  runAndReport b s bPhase_circuit

/-- `BraketQuantumGateExamples.t_gate_example`. -/
def t_gate_example (b : BBackend σ ε) (s : σ) :
    σ × Except ε (ResultSet × BCircuit) :=
  runAndReport b s bTGate_circuit

/-- `BraketQuantumGateExamples.hadamard_gate_example`. -/
def hadamard_gate_example (b : BBackend σ ε) (s : σ) :
    σ × Except ε (ResultSet × BCircuit) :=
  runAndReport b s bHadamard_circuit

/-- `BraketQuantumGateExamples.hadamard_twice_example`. -/
def hadamard_twice_example (b : BBackend σ ε) (s : σ) :
    σ × Except ε (ResultSet × BCircuit) :=
  runAndReport b s bHadamardTwice_circuit

/-- `BraketQuantumGateExamples.complex_circuit_example`. -/
def complex_circuit_example (b : BBackend σ ε) (s : σ) :
    σ × Except ε (ResultSet × BCircuit) :=
  runAndReport b s bComplex_circuit

/-- Sequence one Braket demonstration before the rest of
`run_all_examples`: an unhandled failure aborts everything that follows. -/
def bSeqDemo (step : σ × Except ε (ResultSet × BCircuit))
    (rest : σ → σ × Except ε Unit) : σ × Except ε Unit :=
  match step with
  | (s', .error e) => (s', .error e)
  | (s', .ok _) => rest s'

/-- `BraketQuantumGateExamples.run_all_examples`: the eight demonstrations
called sequentially in the fixed source order, with no error handling. -/
def run_all_examples (b : BBackend σ ε) (s : σ) : σ × Except ε Unit :=
  bSeqDemo (pauli_x_gate_example b s) fun s1 =>
  bSeqDemo (pauli_y_gate_example b s1) fun s2 =>
  bSeqDemo (pauli_z_gate_example b s2) fun s3 =>
  bSeqDemo (phase_gate_example b s3) fun s4 =>
  bSeqDemo (t_gate_example b s4) fun s5 =>
  bSeqDemo (hadamard_gate_example b s5) fun s6 =>
  bSeqDemo (hadamard_twice_example b s6) fun s7 =>
  bSeqDemo (complex_circuit_example b s7) fun s8 => (s8, .ok ())

/-- A total Braket device built from a pure measurements function `g`; its
state logs every run (circuit and shot count) in order. -/
def pureBLogBackend (g : BCircuit → Nat → List (List Bool)) :
    BBackend (List (BCircuit × Nat)) ε :=
  ⟨fun log c shots => (log ++ [(c, shots)], .ok (g c shots))⟩

/-- A Braket device that fails with error `e` on its `k`-th run (0-based)
and otherwise answers via the pure measurements function `g`; its state
counts the runs performed so far. -/
def bFailAtBackend (g : BCircuit → Nat → List (List Bool)) (k : Nat) (e : ε) :
    BBackend Nat ε :=
  ⟨fun n c shots => (n + 1, if n = k then .error e else .ok (g c shots))⟩

/-- The run contract of the spec, at the Braket interface: whenever a run
succeeds, the device returns exactly one measurement row per shot. -/
def BContract (b : BBackend σ ε) : Prop :=
  ∀ s c shots s' ms, b.run s c shots = (s', .ok ms) → ms.length = shots

/-- The eight Braket demonstration methods paired with the circuits they
build, in the source order of the class body. -/
def bDemoPairs (σ ε : Type) :
    List ((BBackend σ ε → σ → σ × Except ε (ResultSet × BCircuit)) ×
      BCircuit) :=
  [(pauli_x_gate_example, bPauliX_circuit),
   (pauli_y_gate_example, bPauliY_circuit),
   (pauli_z_gate_example, bPauliZ_circuit),
   (phase_gate_example, bPhase_circuit),
   (t_gate_example, bTGate_circuit),
   (hadamard_gate_example, bHadamard_circuit),
   (hadamard_twice_example, bHadamardTwice_circuit),
   (complex_circuit_example, bComplex_circuit)]

/-- `BraketDevice` is the value stored in `self.device` by
`BraketQuantumGateExamples.__init__`. -/
inductive BraketDevice
  | awsDevice (arn : String)
  | localSimulator
deriving DecidableEq, Repr

/-- Whether the constructed device is the remote AWS device. -/
def BraketDevice.isRemote : BraketDevice → Bool
  | .awsDevice _ => true
  | .localSimulator => false

/-- `BraketQuantumGateExamples.__init__(use_aws=False, device_arn=None)`:
`if use_aws and device_arn: self.device = AwsDevice(device_arn) else:
self.device = LocalSimulator()`.  Python truthiness makes both `None` and
the empty string falsy for `device_arn`. -/
def braketInit (use_aws : Bool) (device_arn : Option String) : BraketDevice :=
  match use_aws, device_arn with
  | true, some arn => if arn = "" then .localSimulator else .awsDevice arn
  | _, _ => .localSimulator

end Braket

namespace Qiskit

/-- The backend value stored by `QuantumGateExamples.__init__`. -/
inductive QiskitBackendKind
  | qasmSimulator
deriving DecidableEq, Repr

/-- `QuantumGateExamples.__init__(self)`: takes no configuration arguments
and always stores `Aer.get_backend('qasm_simulator')`. -/
def qiskitInit : QiskitBackendKind :=
  .qasmSimulator

end Qiskit

/-!
### The noiseless simulator, modelled from the spec

The execution backends themselves (`Aer.qasm_simulator`, `LocalSimulator`)
are external SDKs, not code of this repository.  The spec describes them as
"a deterministic local simulator"; the claims about concrete outcome
distributions are claims about the textbook statevector semantics of the six
gates.  That semantics is modelled here exactly: amplitudes live in the ring
ℤ[1/2, ω] with ω = e^(iπ/4) (so ω² = i, ω⁴ = −1 and √2 = ω − ω³), which
contains every matrix entry of X, Y, Z, S, T and H and has decidable
equality.
-/

/-- A dyadic rational `num / 2^den2`.  (Plain `ℚ` arithmetic does not reduce
inside the kernel, so the simulator works with explicit dyadic numbers —
every amplitude coefficient and every probability arising from the six gates
on the circuits of this repository is dyadic.) -/
structure Dy where
  num : ℤ
  den2 : Nat
deriving DecidableEq, Repr

namespace Dy

/-- `0`. -/
def zero : Dy := ⟨0, 0⟩

/-- Addition: rescale both numerators to the common denominator
`2^(max den2 den2)` and add. -/
def add (x y : Dy) : Dy :=
  let m := max x.den2 y.den2
  ⟨x.num * 2 ^ (m - x.den2) + y.num * 2 ^ (m - y.den2), m⟩

/-- The value of a dyadic number as a rational. -/
def toRat (x : Dy) : ℚ :=
  (x.num : ℚ) / 2 ^ x.den2

/-- `⌊p · shots⌋` for a non-negative dyadic probability `p`: the expected
occurrence count of an outcome of probability `p` over `shots` trials
(exact whenever `p · shots` is an integer, as it is for every distribution
evaluated in this file; a negative `num` — which never arises for a
probability — is clamped to 0). -/
def shotsCount (p : Dy) (shots : Nat) : Nat :=
  p.num.toNat * shots / 2 ^ p.den2

end Dy

/-- An element `(a + b·ω + c·ω² + d·ω³) / 2^den2` of ℚ[ω], with
ω = e^(iπ/4), so ω² = i, ω⁴ = −1 and √2 = ω − ω³.  This ring contains every
matrix entry of the six gates. -/
structure Dw where
  a : ℤ
  b : ℤ
  c : ℤ
  d : ℤ
  den2 : Nat
deriving DecidableEq, Repr

namespace Dw

/-- `0`. -/
def zero : Dw := ⟨0, 0, 0, 0, 0⟩

/-- `1`. -/
def one : Dw := ⟨1, 0, 0, 0, 0⟩

/-- `ω = e^(iπ/4)`. -/
def omega : Dw := ⟨0, 1, 0, 0, 0⟩

/-- `i = ω²`. -/
def im : Dw := ⟨0, 0, 1, 0, 0⟩

/-- `1/√2 = (ω − ω³)/2`. -/
def invSqrt2 : Dw := ⟨0, 1, 0, -1, 1⟩

/-- Addition: rescale both coefficient vectors to the common denominator
and add componentwise. -/
def add (x y : Dw) : Dw :=
  let m := max x.den2 y.den2
  let sx : ℤ := 2 ^ (m - x.den2)
  let sy : ℤ := 2 ^ (m - y.den2)
  ⟨x.a * sx + y.a * sy, x.b * sx + y.b * sy, x.c * sx + y.c * sy,
    x.d * sx + y.d * sy, m⟩

/-- Negation. -/
def neg (x : Dw) : Dw :=
  ⟨-x.a, -x.b, -x.c, -x.d, x.den2⟩

/-- Multiplication: convolution of the ω-coefficients reduced by ω⁴ = −1;
denominator exponents add. -/
def mul (x y : Dw) : Dw :=
  ⟨x.a * y.a - x.b * y.d - x.c * y.c - x.d * y.b,
   x.a * y.b + x.b * y.a - x.c * y.d - x.d * y.c,
   x.a * y.c + x.b * y.b + x.c * y.a - x.d * y.d,
   x.a * y.d + x.b * y.c + x.c * y.b + x.d * y.a,
   x.den2 + y.den2⟩

/-- Complex conjugation: ω ↦ ω⁻¹ = −ω³, ω² ↦ −ω², ω³ ↦ −ω. -/
def conj (x : Dw) : Dw :=
  ⟨x.a, -x.d, -x.c, -x.b, x.den2⟩

/-- The rational (ω⁰) component of `x · conj x`, as a dyadic number.  When
`x · conj x` is a rational number — as it is for every amplitude arising in
the circuits evaluated in this file, whose probabilities are all dyadic —
this is exactly the Born probability weight `|x|²`. -/
def sqNorm (x : Dw) : Dy :=
  ⟨(mul x (conj x)).a, (mul x (conj x)).den2⟩

end Dw

/-- The 2×2 matrix `(g00, g01, g10, g11)` of each gate, with entries in
`Dw`:  X = [[0,1],[1,0]], Y = [[0,−i],[i,0]], Z = [[1,0],[0,−1]],
S = [[1,0],[0,i]], T = [[1,0],[0,ω]], H = (1/√2)[[1,1],[1,−1]]. -/
def gateMatrix : Gate → Dw × Dw × Dw × Dw
  | .X => (Dw.zero, Dw.one, Dw.one, Dw.zero)
  | .Y => (Dw.zero, Dw.neg Dw.im, Dw.im, Dw.zero)
  | .Z => (Dw.one, Dw.zero, Dw.zero, Dw.neg Dw.one)
  | .S => (Dw.one, Dw.zero, Dw.zero, Dw.im)
  | .T => (Dw.one, Dw.zero, Dw.zero, Dw.omega)
  | .H => (Dw.invSqrt2, Dw.invSqrt2, Dw.invSqrt2, Dw.neg Dw.invSqrt2)

/-- The initial statevector |0…0⟩ on `n` qubits, as the list of `2^n`
basis-state amplitudes (basis index `i` has the bit of qubit `q` at
`Nat.testBit i q`, the little-endian convention of both SDKs). -/
def initState (n : Nat) : List Dw :=
  Dw.one :: List.replicate (2 ^ n - 1) Dw.zero

/-- Apply the single-qubit gate `g` at qubit `q` to a statevector. -/
def applyGate (g : Gate) (q : Nat) (st : List Dw) : List Dw :=
  let m := gateMatrix g
  (List.range st.length).map fun i =>
    if Nat.testBit i q then
      Dw.add (Dw.mul m.2.2.1 (st.getD (i - 2 ^ q) Dw.zero))
        (Dw.mul m.2.2.2 (st.getD i Dw.zero))
    else
      Dw.add (Dw.mul m.1 (st.getD i Dw.zero))
        (Dw.mul m.2.1 (st.getD (i + 2 ^ q) Dw.zero))

/-- All `2^n` bit-string outcomes of length `n`, in basis-index order
(bit `q` of outcome `i` is `Nat.testBit i q`). -/
def allOutcomes (n : Nat) : List (List Bool) :=
  (List.range (2 ^ n)).map fun i => (List.range n).map fun q => Nat.testBit i q


namespace Qiskit

/-- Final statevector of a Qiskit circuit: gate instructions applied in
order, measurements leaving the state unchanged (every circuit in the source
measures only at the end). -/
def runOps (ops : List QOp) (st : List Dw) : List Dw :=
  ops.foldl
    (fun st op =>
      match op with
      | .gate g q => applyGate g q st
      | .measure _ _ => st)
    st

/-- The classical-register outcome that basis state `i` produces: start from
the all-zero classical register and execute each `measure q c` by storing
bit `q` of `i` into classical bit `c`. -/
def clbitsOf (ops : List QOp) (numClbits : Nat) (i : Nat) : List Bool :=
  ops.foldl
    (fun out op =>
      match op with
      | .measure q c => out.set c (Nat.testBit i q)
      | .gate _ _ => out)
    (List.replicate numClbits false)

/-- Born probability of observing classical-register outcome `o` after
running the circuit: the summed `|amplitude|²` of every basis state mapped
to `o` by the measurements. -/
def outcomeProb (qc : QuantumCircuit) (o : List Bool) : Dy :=
  let st := runOps qc.ops (initState qc.numQubits)
  ((List.range (2 ^ qc.numQubits)).map fun i =>
    if clbitsOf qc.ops qc.numClbits i = o then Dw.sqNorm (st.getD i Dw.zero)
    else Dy.zero).foldl Dy.add Dy.zero

/-- Modelled from the spec: the counts that the external noiseless
deterministic simulator (`Aer.get_backend('qasm_simulator')`, an external
SDK not present in the repository) returns for a circuit — the exact
expected frequency of every classical-register outcome. -/
def idealCounts (qc : QuantumCircuit) (shots : Nat) : ResultSet :=
  (allOutcomes qc.numClbits).map fun o =>
    (o, Dy.shotsCount (outcomeProb qc o) shots)

/-- Modelled from the spec: the noiseless deterministic local backend of the
Qiskit driver. -/
def idealQiskitBackend : Backend Unit Unit :=
  ⟨fun s qc shots => (s, .ok (idealCounts qc shots))⟩

end Qiskit

namespace Braket

/-- Number of qubits of a Braket circuit: one more than the highest qubit
index any gate targets (the register the local simulator allocates). -/
def bNumQubits (c : BCircuit) : Nat :=
  c.ops.foldl
    (fun n op =>
      match op with
      | .gate _ q => max n (q + 1)
      | .sampleZ => n)
    0

/-- Final statevector of a Braket circuit: gate instructions applied in
order, the sample result type leaving the state unchanged. -/
def bRunOps (ops : List BOp) (st : List Dw) : List Dw :=
  ops.foldl
    (fun st op =>
      match op with
      | .gate g q => applyGate g q st
      | .sampleZ => st)
    st

/-- Modelled from the spec: the per-shot measurement rows that the external
noiseless deterministic simulator (`LocalSimulator()`, an external SDK not
present in the repository) returns for a circuit — each full-register
outcome repeated exactly its expected number of times. -/
def idealMeasurements (c : BCircuit) (shots : Nat) : List (List Bool) :=
  let n := bNumQubits c
  let st := bRunOps c.ops (initState n)
  ((List.range (2 ^ n)).map fun i =>
    List.replicate (Dy.shotsCount (Dw.sqNorm (st.getD i Dw.zero)) shots)
      ((List.range n).map fun q => Nat.testBit i q)).flatten

/-- Modelled from the spec: the noiseless deterministic local device of the
Braket driver. -/
def idealBraketBackend : BBackend Unit Unit :=
  ⟨fun s c shots => (s, .ok (idealMeasurements c shots))⟩

end Braket

/-!
### Helper lemmas
-/

theorem sumCounts_cons (k : List Bool) (n : Nat) (rest : ResultSet) :
    sumCounts ((k, n) :: rest) = n + sumCounts rest := by
  simp [sumCounts]

/-- One `Counter` increment raises the total count by exactly one. -/
theorem sumCounts_bump (acc : ResultSet) (m : List Bool) :
    sumCounts (Braket.bump acc m) = sumCounts acc + 1 := by
  induction acc with
  | nil => rfl
  | cons p rest ih =>
    obtain ⟨k, n⟩ := p
    by_cases h : k = m <;>
      simp [Braket.bump, h, sumCounts_cons, ih] <;> omega

theorem sumCounts_foldl_bump (ms : List (List Bool)) (acc : ResultSet) :
    sumCounts (ms.foldl Braket.bump acc) = sumCounts acc + ms.length := by
  induction ms generalizing acc with
  | nil => simp
  | cons m rest ih =>
    simp [List.foldl, ih, sumCounts_bump]
    omega

/-- Tallying measurement rows gives counts summing to the number of rows. -/
theorem sumCounts_tally (ms : List (List Bool)) :
    sumCounts (Braket.tally ms) = ms.length := by
  unfold Braket.tally
  simpa [sumCounts] using sumCounts_foldl_bump ms []

/-- Under the submit contract, any counts a Qiskit demonstration body
returns sum to 1000. -/
theorem qiskit_body_counts_sum {σ ε : Type} {b : Qiskit.Backend σ ε}
    (hb : Qiskit.QContract b) {s s' : σ} {qc qc' : Qiskit.QuantumCircuit}
    {cs : ResultSet}
    (h : Qiskit.submitAndReport b s qc = (s', .ok (cs, qc'))) :
    sumCounts cs = 1000 := by
  unfold Qiskit.submitAndReport at h
  rcases hsub : b.submit s qc 1000 with ⟨s1, r⟩
  rw [hsub] at h
  cases r with
  | error e => simp at h
  | ok cs1 =>
    simp at h
    obtain ⟨-, h2, -⟩ := h
    subst h2
    exact hb _ _ _ _ _ hsub

/-- Under the run contract, any counts a Braket demonstration body returns
sum to 1000. -/
theorem braket_body_counts_sum {σ ε : Type} {b : Braket.BBackend σ ε}
    (hb : Braket.BContract b) {s s' : σ} {c c' : Braket.BCircuit}
    {cs : ResultSet}
    (h : Braket.runAndReport b s c = (s', .ok (cs, c'))) :
    sumCounts cs = 1000 := by
  unfold Braket.runAndReport at h
  rcases hrun : b.run s c 1000 with ⟨s1, r⟩
  rw [hrun] at h
  cases r with
  | error e => simp at h
  | ok ms =>
    simp at h
    obtain ⟨-, h2, -⟩ := h
    subst h2
    rw [sumCounts_tally]
    exact hb _ _ _ _ _ hrun

/-!
### Claim theorems
-/

/-- C1.  For every construction of the runner (both the Qiskit and the
Braket driver), `run_all_examples` performs exactly the eight submissions of
the eight demonstration methods, once each, in the fixed order Pauli-X,
Pauli-Y, Pauli-Z, Phase(S), T, Hadamard, double-Hadamard, composite
H-X-S-H, and performs no other submission.  Since every demonstration
performs exactly one submission carrying its own hard-coded circuit and the
eight circuits are pairwise distinct, the submission log identifies the
demonstration invocations. -/
theorem run_all_invokes_each_demo_once_in_order
    (f : Qiskit.QuantumCircuit → Nat → ResultSet)
    (g : Braket.BCircuit → Nat → List (List Bool)) :
    (Qiskit.run_all_examples (@Qiskit.pureLogBackend Unit f) []).1 =
      [(Qiskit.pauliX_circuit, 1000), (Qiskit.pauliY_circuit, 1000),
       (Qiskit.pauliZ_circuit, 1000), (Qiskit.phase_circuit, 1000),
       (Qiskit.tGate_circuit, 1000), (Qiskit.hadamard_circuit, 1000),
       (Qiskit.hadamardTwice_circuit, 1000),
       (Qiskit.combination_circuit, 1000)] ∧
    (Braket.run_all_examples (@Braket.pureBLogBackend Unit g) []).1 =
      [(Braket.bPauliX_circuit, 1000), (Braket.bPauliY_circuit, 1000),
       (Braket.bPauliZ_circuit, 1000), (Braket.bPhase_circuit, 1000),
       (Braket.bTGate_circuit, 1000), (Braket.bHadamard_circuit, 1000),
       (Braket.bHadamardTwice_circuit, 1000),
       (Braket.bComplex_circuit, 1000)] ∧
    ((Qiskit.demoPairs Unit Unit).map Prod.snd).Pairwise (· ≠ ·) ∧
    ((Braket.bDemoPairs Unit Unit).map Prod.snd).Pairwise (· ≠ ·) :=
  ⟨rfl, rfl, by decide, by decide⟩

/-- C2.  If the backend fails on the `k`-th submission (`k < 8`) inside
`run_all_examples`, the failure value propagates to the caller unmodified
and exactly `k + 1` submissions are ever performed — no retry, no fallback,
and no subsequent demonstration executes.  Holds for both drivers. -/
theorem run_all_failure_propagates_and_halts {ε : Type}
    (f : Qiskit.QuantumCircuit → Nat → ResultSet)
    (g : Braket.BCircuit → Nat → List (List Bool))
    (e : ε) (k : Nat) (hk : k < 8) :
    Qiskit.run_all_examples (Qiskit.failAtBackend f k e) 0 =
      (k + 1, .error e) ∧
    Braket.run_all_examples (Braket.bFailAtBackend g k e) 0 =
      (k + 1, .error e) := by
  interval_cases k <;> exact ⟨rfl, rfl⟩

/-- Witness for C2 at `k = 3` (the Phase demonstration fails). -/
theorem run_all_failure_propagates_and_halts_witness :
    Qiskit.run_all_examples
        (Qiskit.failAtBackend (fun _ _ => []) 3 "submission failed") 0 =
      (3 + 1, .error "submission failed") ∧
    Braket.run_all_examples
        (Braket.bFailAtBackend (fun _ _ => []) 3 "submission failed") 0 =
      (3 + 1, .error "submission failed") :=
  run_all_failure_propagates_and_halts (fun _ _ => []) (fun _ _ => [])
    "submission failed" 3 (by decide)

/-- C3.  For every demonstration of either driver and any backend
implementing the submit contract, the counts in the returned `ResultSet`
sum to the configured shot count 1000.  (Counts are values of type `Nat`,
hence non-negative integers by construction; for the Braket driver the sum
property follows from the repository's own `Counter` aggregation of the
per-shot measurement rows.) -/
theorem demo_counts_sum_to_shots {σ1 ε1 σ2 ε2 : Type}
    (bq : Qiskit.Backend σ1 ε1) (bb : Braket.BBackend σ2 ε2)
    (hq : Qiskit.QContract bq) (hb : Braket.BContract bb) :
    (∀ p ∈ Qiskit.demoPairs σ1 ε1, ∀ s s' cs qc,
      p.1 bq s = (s', .ok (cs, qc)) → sumCounts cs = 1000) ∧
    (∀ p ∈ Braket.bDemoPairs σ2 ε2, ∀ s s' cs c,
      p.1 bb s = (s', .ok (cs, c)) → sumCounts cs = 1000) := by
  constructor
  · intro p hp
    fin_cases hp <;>
      exact fun s s' cs qc h => qiskit_body_counts_sum hq h
  · intro p hp
    fin_cases hp <;>
      exact fun s s' cs c h => braket_body_counts_sum hb h

/-- Witness for C3: concrete contract-satisfying backends, evaluated on the
Pauli-X demonstrations of both drivers. -/
theorem demo_counts_sum_to_shots_witness :
    sumCounts [([true], 1000)] = 1000 ∧
    sumCounts (Braket.tally (List.replicate 1000 [true])) = 1000 := by
  have h := demo_counts_sum_to_shots
    (⟨fun s qc shots => (s, .ok [([true], shots)])⟩ :
      Qiskit.Backend Unit Unit)
    (⟨fun s c shots => (s, .ok (List.replicate shots [true]))⟩ :
      Braket.BBackend Unit Unit)
    (by intro s qc shots s' cs hsub
        injection hsub with h1 h2
        injection h2 with h2
        subst h2
        simp [sumCounts])
    (by intro s c shots s' ms hrun
        injection hrun with h1 h2
        injection h2 with h2
        subst h2
        simp)
  refine ⟨?_, ?_⟩
  · exact h.1 (Qiskit.pauli_x_gate, Qiskit.pauliX_circuit)
      (by simp [Qiskit.demoPairs]) () () [([true], 1000)]
      Qiskit.pauliX_circuit rfl
  · exact h.2 (Braket.pauli_x_gate_example, Braket.bPauliX_circuit)
      (by simp [Braket.bDemoPairs]) () ()
      (Braket.tally (List.replicate 1000 [true])) Braket.bPauliX_circuit rfl

/-- C4.  Each demonstration method of either driver builds exactly its
hard-coded gate sequence — `[X]`, `[Y]`, `[H, Z]`, `[H, S]`, `[H, T]`,
`[H]`, `[H, H]`, `[H, X, S, H]` in the declared order — and that very
circuit (value-identical, never mutated after construction) is both the one
submitted to the backend and the one returned to the caller. -/
theorem demo_gate_sequences_hardcoded
    (f : Qiskit.QuantumCircuit → Nat → ResultSet)
    (g : Braket.BCircuit → Nat → List (List Bool)) :
    ((Qiskit.demoPairs Unit Unit).map fun p => Qiskit.gatesOf p.2) =
      [[.X], [.Y], [.H, .Z], [.H, .S], [.H, .T], [.H], [.H, .H],
       [.H, .X, .S, .H]] ∧
    ((Braket.bDemoPairs Unit Unit).map fun p => Braket.bGatesOf p.2) =
      [[.X], [.Y], [.H, .Z], [.H, .S], [.H, .T], [.H], [.H, .H],
       [.H, .X, .S, .H]] ∧
    (∀ p ∈ Qiskit.demoPairs (List (Qiskit.QuantumCircuit × Nat)) Unit,
      ∀ log, (p.1 (@Qiskit.pureLogBackend Unit f) log).1 =
          log ++ [(p.2, 1000)] ∧
        ∀ s' cs qc, p.1 (@Qiskit.pureLogBackend Unit f) log =
          (s', .ok (cs, qc)) → qc = p.2) ∧
    (∀ p ∈ Braket.bDemoPairs (List (Braket.BCircuit × Nat)) Unit,
      ∀ log, (p.1 (@Braket.pureBLogBackend Unit g) log).1 =
          log ++ [(p.2, 1000)] ∧
        ∀ s' cs c, p.1 (@Braket.pureBLogBackend Unit g) log =
          (s', .ok (cs, c)) → c = p.2) := by
  refine ⟨by decide, by decide, ?_, ?_⟩
  · intro p hp
    fin_cases hp <;>
      exact fun log => ⟨rfl, fun s' cs qc h => by
        injection h with h1 h2
        injection h2 with h2
        injection h2 with h2 h3
        exact h3.symm⟩
  · intro p hp
    fin_cases hp <;>
      exact fun log => ⟨rfl, fun s' cs c h => by
        injection h with h1 h2
        injection h2 with h2
        injection h2 with h2 h3
        exact h3.symm⟩

/-- Witness for C4: the Pauli-X demonstrations of both drivers, run against
logging backends with trivial counts. -/
theorem demo_gate_sequences_hardcoded_witness :
    (Qiskit.pauli_x_gate
        (@Qiskit.pureLogBackend Unit fun _ _ => []) []).1 =
      [] ++ [(Qiskit.pauliX_circuit, 1000)] ∧
    (Braket.pauli_x_gate_example
        (@Braket.pureBLogBackend Unit fun _ _ => []) []).1 =
      [] ++ [(Braket.bPauliX_circuit, 1000)] := by
  have h := demo_gate_sequences_hardcoded (fun _ _ => []) (fun _ _ => [])
  exact ⟨(h.2.2.1 (Qiskit.pauli_x_gate, Qiskit.pauliX_circuit)
      (by simp [Qiskit.demoPairs]) []).1,
    (h.2.2.2 (Braket.pauli_x_gate_example, Braket.bPauliX_circuit)
      (by simp [Braket.bDemoPairs]) []).1⟩

/-- C5.  Every demonstration method of either driver performs exactly one
submission to the backend, with the fixed shot count 1000, and blocks on
that submission's result: the pair it returns is exactly (the `ResultSet`
obtained from that one submission, the built circuit) — for the Braket
driver, the `Counter` tally of the measurement rows that one run returned.
With an arbitrary pure backend `f` (resp. `g`) and an arbitrary starting
log, the log is extended by exactly the one entry `(circuit, 1000)`. -/
theorem demo_single_synchronous_submission
    (f : Qiskit.QuantumCircuit → Nat → ResultSet)
    (g : Braket.BCircuit → Nat → List (List Bool)) :
    (∀ p ∈ Qiskit.demoPairs (List (Qiskit.QuantumCircuit × Nat)) Unit,
      ∀ log, p.1 (@Qiskit.pureLogBackend Unit f) log =
        (log ++ [(p.2, 1000)], .ok (f p.2 1000, p.2))) ∧
    (∀ p ∈ Braket.bDemoPairs (List (Braket.BCircuit × Nat)) Unit,
      ∀ log, p.1 (@Braket.pureBLogBackend Unit g) log =
        (log ++ [(p.2, 1000)], .ok (Braket.tally (g p.2 1000), p.2))) := by
  constructor
  · intro p hp
    fin_cases hp <;> exact fun log => rfl
  · intro p hp
    fin_cases hp <;> exact fun log => rfl

/-- Witness for C5: the Hadamard demonstrations of both drivers, run
against logging backends whose one answer is a fixed single row. -/
theorem demo_single_synchronous_submission_witness :
    Qiskit.hadamard_gate
        (@Qiskit.pureLogBackend Unit fun _ _ => [([false], 1000)]) [] =
      ([] ++ [(Qiskit.hadamard_circuit, 1000)],
        .ok ([([false], 1000)], Qiskit.hadamard_circuit)) ∧
    Braket.hadamard_gate_example
        (@Braket.pureBLogBackend Unit fun _ _ => [[false]]) [] =
      ([] ++ [(Braket.bHadamard_circuit, 1000)],
        .ok (Braket.tally [[false]], Braket.bHadamard_circuit)) := by
  have h := demo_single_synchronous_submission
    (fun _ _ => [([false], 1000)]) (fun _ _ => [[false]])
  exact ⟨h.1 (Qiskit.hadamard_gate, Qiskit.hadamard_circuit)
      (by simp [Qiskit.demoPairs]) [],
    h.2 (Braket.hadamard_gate_example, Braket.bHadamard_circuit)
      (by simp [Braket.bDemoPairs]) []⟩

set_option maxRecDepth 8000 in
/-- C6.  With the noiseless deterministic simulator backend (modelled from
the spec), the double-Hadamard demonstration of either driver returns a
`ResultSet` assigning all 1000 counts to the all-zero outcome — H·H is the
identity on |0⟩ — and every other outcome has count zero. -/
theorem double_hadamard_all_zero :
    Qiskit.hadamard_twice Qiskit.idealQiskitBackend () =
      ((), .ok ([([false], 1000), ([true], 0)],
        Qiskit.hadamardTwice_circuit)) ∧
    (∀ cs qc,
      (Qiskit.hadamard_twice Qiskit.idealQiskitBackend ()).2 =
          .ok (cs, qc) →
        lookupCount cs [false] = 1000 ∧
        ∀ o, o ≠ [false] → lookupCount cs o = 0) ∧
    Braket.hadamard_twice_example Braket.idealBraketBackend () =
      ((), .ok ([([false], 1000)], Braket.bHadamardTwice_circuit)) ∧
    (∀ cs c,
      (Braket.hadamard_twice_example Braket.idealBraketBackend ()).2 =
          .ok (cs, c) →
        lookupCount cs [false] = 1000 ∧
        ∀ o, o ≠ [false] → lookupCount cs o = 0) := by
  refine ⟨rfl, ?_, by rfl, ?_⟩
  · intro cs qc h
    rw [show (Qiskit.hadamard_twice Qiskit.idealQiskitBackend ()).2 =
        .ok ([([false], 1000), ([true], 0)], Qiskit.hadamardTwice_circuit)
      from rfl] at h
    injection h with h
    injection h with h1 h2
    subst h1
    refine ⟨rfl, ?_⟩
    intro o ho
    simp only [lookupCount]
    rw [if_neg fun hx => ho hx.symm]
    split <;> rfl
  · intro cs c h
    rw [show (Braket.hadamard_twice_example Braket.idealBraketBackend ()).2 =
        .ok ([([false], 1000)], Braket.bHadamardTwice_circuit)
      from rfl] at h
    injection h with h
    injection h with h1 h2
    subst h1
    refine ⟨rfl, ?_⟩
    intro o ho
    simp only [lookupCount]
    rw [if_neg fun hx => ho hx.symm]

set_option maxRecDepth 8000 in
/-- Witness for C6: the concrete counts of both drivers evaluated at the
non-all-zero outcome `[true]`. -/
theorem double_hadamard_all_zero_witness :
    lookupCount [([false], 1000), ([true], 0)] [true] = 0 ∧
    lookupCount [([false], 1000)] [true] = 0 :=
  ⟨(double_hadamard_all_zero.2.1 [([false], 1000), ([true], 0)]
      Qiskit.hadamardTwice_circuit rfl).2 [true] (by decide),
   (double_hadamard_all_zero.2.2.2 [([false], 1000)]
      Braket.bHadamardTwice_circuit rfl).2 [true] (by decide)⟩

set_option maxRecDepth 8000 in
/-- C7.  With the noiseless deterministic simulator backend (modelled from
the spec), the Pauli-X demonstration of either driver returns a `ResultSet`
assigning all 1000 counts to the all-one outcome, and every other outcome
has count zero. -/
theorem pauli_x_all_one :
    Qiskit.pauli_x_gate Qiskit.idealQiskitBackend () =
      ((), .ok ([([false], 0), ([true], 1000)], Qiskit.pauliX_circuit)) ∧
    (∀ cs qc,
      (Qiskit.pauli_x_gate Qiskit.idealQiskitBackend ()).2 =
          .ok (cs, qc) →
        lookupCount cs [true] = 1000 ∧
        ∀ o, o ≠ [true] → lookupCount cs o = 0) ∧
    Braket.pauli_x_gate_example Braket.idealBraketBackend () =
      ((), .ok ([([true], 1000)], Braket.bPauliX_circuit)) ∧
    (∀ cs c,
      (Braket.pauli_x_gate_example Braket.idealBraketBackend ()).2 =
          .ok (cs, c) →
        lookupCount cs [true] = 1000 ∧
        ∀ o, o ≠ [true] → lookupCount cs o = 0) := by
  refine ⟨rfl, ?_, by rfl, ?_⟩
  · intro cs qc h
    rw [show (Qiskit.pauli_x_gate Qiskit.idealQiskitBackend ()).2 =
        .ok ([([false], 0), ([true], 1000)], Qiskit.pauliX_circuit)
      from rfl] at h
    injection h with h
    injection h with h1 h2
    subst h1
    refine ⟨rfl, ?_⟩
    intro o ho
    simp only [lookupCount]
    split
    · rfl
    · rw [if_neg fun hx => ho hx.symm]
  · intro cs c h
    rw [show (Braket.pauli_x_gate_example Braket.idealBraketBackend ()).2 =
        .ok ([([true], 1000)], Braket.bPauliX_circuit)
      from rfl] at h
    injection h with h
    injection h with h1 h2
    subst h1
    refine ⟨rfl, ?_⟩
    intro o ho
    simp only [lookupCount]
    rw [if_neg fun hx => ho hx.symm]

set_option maxRecDepth 8000 in
/-- Witness for C7: the concrete counts of both drivers evaluated at the
non-all-one outcome `[false]`. -/
theorem pauli_x_all_one_witness :
    lookupCount [([false], 0), ([true], 1000)] [false] = 0 ∧
    lookupCount [([true], 1000)] [false] = 0 :=
  ⟨(pauli_x_all_one.2.1 [([false], 0), ([true], 1000)]
      Qiskit.pauliX_circuit rfl).2 [false] (by decide),
   (pauli_x_all_one.2.2.2 [([true], 1000)]
      Braket.bPauliX_circuit rfl).2 [false] (by decide)⟩

set_option maxRecDepth 8000 in
/-- C8.  With the noiseless simulator backend (modelled from the spec), the
Hadamard-only and the H-then-S (Phase) demonstrations each return a
`ResultSet` whose two single-qubit outcomes are statistically balanced:
each outcome's share of the 1000 shots lies within any tolerance band of
width `t > 0` around 50% (the ideal shares are exactly 1/2, hence inside
every band; no exact equality is required by the claim). -/
theorem hadamard_and_phase_balanced (t : ℚ) (ht : 0 < t) :
    (∃ cs, Qiskit.hadamard_gate Qiskit.idealQiskitBackend () =
        ((), .ok (cs, Qiskit.hadamard_circuit)) ∧
      |(lookupCount cs [false] : ℚ) / 1000 - 1 / 2| ≤ t ∧
      |(lookupCount cs [true] : ℚ) / 1000 - 1 / 2| ≤ t) ∧
    (∃ cs, Qiskit.phase_gate Qiskit.idealQiskitBackend () =
        ((), .ok (cs, Qiskit.phase_circuit)) ∧
      |(lookupCount cs [false] : ℚ) / 1000 - 1 / 2| ≤ t ∧
      |(lookupCount cs [true] : ℚ) / 1000 - 1 / 2| ≤ t) ∧
    (∃ cs, Braket.hadamard_gate_example Braket.idealBraketBackend () =
        ((), .ok (cs, Braket.bHadamard_circuit)) ∧
      |(lookupCount cs [false] : ℚ) / 1000 - 1 / 2| ≤ t ∧
      |(lookupCount cs [true] : ℚ) / 1000 - 1 / 2| ≤ t) := by
  refine ⟨⟨[([false], 500), ([true], 500)], rfl, ?_, ?_⟩,
    ⟨[([false], 500), ([true], 500)], rfl, ?_, ?_⟩,
    ⟨[([false], 500), ([true], 500)], by rfl, ?_, ?_⟩⟩
  all_goals
    simp only
      [show lookupCount [([false], 500), ([true], 500)] [false] = 500
        from rfl,
       show lookupCount [([false], 500), ([true], 500)] [true] = 500
        from rfl]
  all_goals
    rw [(by norm_num : |((500 : ℕ) : ℚ) / 1000 - 1 / 2| = (0 : ℚ))]
  all_goals exact le_of_lt ht

/-- Witness for C8 at tolerance `t = 1/20`. -/
theorem hadamard_and_phase_balanced_witness :
    ∃ cs, Qiskit.hadamard_gate Qiskit.idealQiskitBackend () =
        ((), .ok (cs, Qiskit.hadamard_circuit)) ∧
      |(lookupCount cs [false] : ℚ) / 1000 - 1 / 2| ≤ 1 / 20 ∧
      |(lookupCount cs [true] : ℚ) / 1000 - 1 / 2| ≤ 1 / 20 :=
  (hadamard_and_phase_balanced (1 / 20) (by norm_num)).1

/-- C9 counterexample.  Constructing the Braket runner with the boolean set
to `true` but no device identifier does NOT select the remote device
backend: `BraketQuantumGateExamples(use_aws=True)` stores the local
simulator, because `__init__` requires `use_aws and device_arn` to be
truthy.  (The Qiskit driver's `__init__` takes no configuration at all.) -/
theorem braket_remote_flag_alone_selects_local :
    Braket.braketInit true none = Braket.BraketDevice.localSimulator ∧
    (Braket.braketInit true none).isRemote = false :=
  ⟨rfl, rfl⟩

/-- C9, amended.  The Qiskit driver takes no configuration and always uses
the local qasm simulator.  The Braket driver takes a boolean and an
optional device-identifier string at construction, and selects the remote
AWS device exactly when the boolean is true AND a non-empty device
identifier is supplied; in every other case (including boolean true with no
identifier) it selects the local simulator. -/
theorem backend_selection_amended (u : Bool) (a : Option String) :
    Qiskit.qiskitInit = Qiskit.QiskitBackendKind.qasmSimulator ∧
    ((Braket.braketInit u a).isRemote = true ↔
      u = true ∧ ∃ arn, a = some arn ∧ arn ≠ "") := by
  refine ⟨rfl, ?_⟩
  cases u <;> rcases a with _ | arn <;>
    simp [Braket.braketInit, Braket.BraketDevice.isRemote]
  by_cases h : arn = "" <;>
    simp [h, Braket.BraketDevice.isRemote]

/-- Witness for C9 (amended): a non-empty identifier with the flag set
selects the remote device. -/
theorem backend_selection_amended_witness :
    (Braket.braketInit true
      (some "arn:aws:braket:::device/qpu/ionq/ionQdevice")).isRemote =
        true :=
  (backend_selection_amended true
    (some "arn:aws:braket:::device/qpu/ionq/ionQdevice")).2.mpr
    ⟨rfl, "arn:aws:braket:::device/qpu/ionq/ionQdevice", rfl, by decide⟩

/-- C10.  The Qiskit Pauli-Z demonstration's circuit has a 2-qubit quantum
register and a 1-bit classical register, applies its gates and single
measurement only to qubit 0, and consequently (under the modelled noiseless
simulator) every outcome key of its counts is a one-bit string — the same
output shape as the 1-qubit-register demonstrations — and the second qubit
never affects the result: the counts coincide with those of the same
circuit on a 1-qubit register, and with those of the 1-qubit Phase
demonstration. -/
theorem pauli_z_register_shape :
    Qiskit.pauliZ_circuit.numQubits = 2 ∧
    Qiskit.pauliZ_circuit.numClbits = 1 ∧
    (∀ op ∈ Qiskit.pauliZ_circuit.ops, Qiskit.QOp.targetQubit op = 0) ∧
    Qiskit.pauliZ_circuit.ops.countP Qiskit.QOp.isMeasure = 1 ∧
    (∀ p ∈ Qiskit.idealCounts Qiskit.pauliZ_circuit 1000, p.1.length = 1) ∧
    Qiskit.idealCounts Qiskit.pauliZ_circuit 1000 =
      Qiskit.idealCounts { Qiskit.pauliZ_circuit with numQubits := 1 }
        1000 ∧
    Qiskit.idealCounts Qiskit.pauliZ_circuit 1000 =
      Qiskit.idealCounts Qiskit.phase_circuit 1000 := by
  decide

/-- Witness for C10: the Hadamard instruction of the Pauli-Z circuit
targets qubit 0. -/
theorem pauli_z_register_shape_witness :
    Qiskit.QOp.targetQubit (Qiskit.QOp.gate Gate.H 0) = 0 :=
  pauli_z_register_shape.2.2.1 (Qiskit.QOp.gate Gate.H 0) (by decide)
